import Mathlib

/-!
Verification of the breadcrumb construction logic of the angular-breadcrumb
repository.

The embedding mirrors `BreadcrumbService` (`addBreadcrumb`, `getLabel`, the
constructor subscription) together with the data model used by the service:
activated route snapshots (url segments, a data bag, children, first child),
route data bags carrying an optional `breadcrumb` property that is either a
literal string or a label-deriving function, and `Breadcrumb` elements.

Label-deriving functions receive the whole data bag in the source
(`data.breadcrumb(data)`), which would be a negative occurrence in an
inductive type; they are therefore defunctionalized: a function entry is a
code of an abstract type `φ`, and an interpretation `interp : φ → Data φ δ →
String` applies a code to a data bag. Quantifying over `φ`, `δ` and `interp`
quantifies over all label functions and all shapes of the remaining data
fields. Mutation (the `push` on the breadcrumbs array) is rendered as
explicit accumulator passing, and, for the frame claim, as explicit state
passing over a heap holding the route tree and the array.
-/

namespace AngularBreadcrumb

/-- A URL segment of the router, carrying its path text
(`UrlSegment.path` in the source). -/
structure UrlSegment where
  path : String
deriving DecidableEq

/-- The value of the `breadcrumb` property of a route data bag: a literal
string, or a label-deriving function defunctionalized as a code of type
`φ`. -/
inductive BreadcrumbValue (φ : Type) where
  | str (s : String)
  | fn (code : φ)
deriving DecidableEq

/-- A route data bag (`Data` in the source): the optional `breadcrumb`
property plus the remaining resolved fields, abstracted as `δ`. -/
structure Data (φ δ : Type) where
  breadcrumb : Option (BreadcrumbValue φ)
  rest : δ
deriving DecidableEq

variable {φ δ : Type}

/-- JS truthiness of the `breadcrumb` property as tested by
`if (route.data.breadcrumb)`: an absent (undefined) property and the empty
string are falsy; a non-empty string and a function are truthy. -/
def truthy : Option (BreadcrumbValue φ) → Bool
  | none => false
  | some (BreadcrumbValue.str s) => !s.isEmpty
  | some (BreadcrumbValue.fn _) => true

/-- A breadcrumb element as pushed by the service: the label is the JS
value returned by `getLabel` (a string whenever the `breadcrumb` property
is truthy, which the push guard ensures; `none` models `undefined`), and
the page URL. -/
structure Breadcrumb where
  label : Option String
  url : String
deriving DecidableEq

/-- An activated route snapshot: its URL segments, its data bag and its
children. The active path follows the first child. -/
inductive ActivatedRouteSnapshot (φ δ : Type) where
  | mk (url : List UrlSegment) (data : Data φ δ)
       (children : List (ActivatedRouteSnapshot φ δ))

/-- The URL segments of a snapshot (`route.url`). -/
def ActivatedRouteSnapshot.url : ActivatedRouteSnapshot φ δ → List UrlSegment
  | .mk u _ _ => u

/-- The data bag of a snapshot (`route.data`). -/
def ActivatedRouteSnapshot.data : ActivatedRouteSnapshot φ δ → Data φ δ
  | .mk _ d _ => d

/-- The children of a snapshot (`route.children`). -/
def ActivatedRouteSnapshot.children :
    ActivatedRouteSnapshot φ δ → List (ActivatedRouteSnapshot φ δ)
  | .mk _ _ cs => cs

/-- The first child of a snapshot (`route.firstChild`): the head of its
children, or null when there is none. -/
def ActivatedRouteSnapshot.firstChild :
    ActivatedRouteSnapshot φ δ → Option (ActivatedRouteSnapshot φ δ)
  | .mk _ _ cs => cs.head?

/-- BreadcrumbService.getLabel: a function-typed `breadcrumb` property is
applied to the data bag itself, otherwise the property value is returned as
is (the string, or `none` for undefined). -/
def getLabel (interp : φ → Data φ δ → String) (data : Data φ δ) :
    Option String :=
  match data.breadcrumb with
  | some (BreadcrumbValue.fn code) => some (interp code data)
  | some (BreadcrumbValue.str s) => some s
  | none => none

/-- BreadcrumbService.addBreadcrumb, with the `push` on the breadcrumbs
array rendered as returning the extended list. The recursive call on
`route.firstChild` is split on whether a first child exists so that the
recursion is visibly decreasing. -/
def addBreadcrumb (interp : φ → Data φ δ → String) :
    Option (ActivatedRouteSnapshot φ δ) → List String → List Breadcrumb →
    List Breadcrumb
  | none, _, breadcrumbs => breadcrumbs
  | some (.mk url data children), parentUrl, breadcrumbs =>
      let routeUrl := parentUrl ++ url.map UrlSegment.path
      let breadcrumbs2 :=
        if truthy data.breadcrumb then
          breadcrumbs ++
            [{ label := getLabel interp data
               url := "/" ++ String.intercalate "/" routeUrl }]
        else breadcrumbs
      match children with
      | [] => addBreadcrumb interp none routeUrl breadcrumbs2
      | c :: _ => addBreadcrumb interp (some c) routeUrl breadcrumbs2

/-- The chain of nodes reached from a snapshot by repeatedly taking the
first child (the active path of the specification), each node paired with
the cumulative URL segments from the root down to and including it. -/
def activePathChain (parentUrl : List String) :
    ActivatedRouteSnapshot φ δ → List (List String × Data φ δ)
  | .mk url data children =>
      let routeUrl := parentUrl ++ url.map UrlSegment.path
      (routeUrl, data) ::
        (match children with
          | [] => []
          | c :: _ => activePathChain routeUrl c)

/-- Number of nodes on the active path of a snapshot. -/
def chainLength : ActivatedRouteSnapshot φ δ → Nat
  | .mk _ _ [] => 1
  | .mk _ _ (c :: _) => 1 + chainLength c

/-- The breadcrumb element contributed by one active-path node, as the
specification describes it: nothing when the `breadcrumb` property is not
truthy, otherwise the label determined by `getLabel` and the page URL
built from a leading slash and the slash-joined cumulative segments. -/
def renderEntry (interp : φ → Data φ δ → String)
    (pd : List String × Data φ δ) : Option Breadcrumb :=
  if truthy pd.2.breadcrumb then
    some { label := getLabel interp pd.2
           url := "/" ++ String.intercalate "/" pd.1 }
  else none

example :
    addBreadcrumb (fun (_ : Unit) (_ : Data Unit Unit) => "u")
      (some (.mk [⟨"home"⟩] ⟨some (.str "Home"), ()⟩ [])) [] [] =
      [{ label := some "Home", url := "/home" }] := by
  simp [addBreadcrumb, truthy, getLabel]
  decide

example :
    addBreadcrumb (fun (_ : Unit) (_ : Data Unit Unit) => "u")
      (some (.mk [] ⟨none, ()⟩
        [.mk [⟨"users"⟩] ⟨some (.str "Users"), ()⟩
          [.mk [⟨"1"⟩] ⟨some (.fn ()), ()⟩ []]])) [] [] =
      [{ label := some "Users", url := "/users" },
       { label := some "u", url := "/users/1" }] := by
  simp [addBreadcrumb, truthy, getLabel]
  decide

/-- Fuel-indexed variant of `addBreadcrumb`, used to state termination: it
performs the same steps but gives up (returns `none`) when the fuel is
exhausted while a node remains. -/
def addBreadcrumbFuel (interp : φ → Data φ δ → String) :
    Nat → Option (ActivatedRouteSnapshot φ δ) → List String →
    List Breadcrumb → Option (List Breadcrumb)
  | _, none, _, breadcrumbs => some breadcrumbs
  | 0, some _, _, _ => none
  | fuel + 1, some (.mk url data children), parentUrl, breadcrumbs =>
      let routeUrl := parentUrl ++ url.map UrlSegment.path
      let breadcrumbs2 :=
        if truthy data.breadcrumb then
          breadcrumbs ++
            [{ label := getLabel interp data
               url := "/" ++ String.intercalate "/" routeUrl }]
        else breadcrumbs
      match children with
      | [] => addBreadcrumbFuel interp fuel none routeUrl breadcrumbs2
      | c :: _ => addBreadcrumbFuel interp fuel (some c) routeUrl breadcrumbs2

/-- A router event as seen by the service subscription: a NavigationEnd
event, carried together with the activated route tree snapshot current at
that moment (`router.routerState.snapshot.root`), or any other router
event. -/
inductive RouterEvent (φ δ : Type) where
  | navigationEnd (root : ActivatedRouteSnapshot φ δ)
  | other

/-- The `instanceof NavigationEnd` test used in the filter of the
constructor subscription. -/
def isNavigationEnd : RouterEvent φ δ → Bool
  | .navigationEnd _ => true
  | .other => false

/-- One step of the constructor subscription of BreadcrumbService: a
NavigationEnd event recomputes the breadcrumbs from the current snapshot
root, starting from an empty parent URL and a fresh empty array, and emits
them on the subject; any other event is filtered out, leaving the subject
value unchanged. -/
def onRouterEvent (interp : φ → Data φ δ → String)
    (current : List Breadcrumb) : RouterEvent φ δ → List Breadcrumb
  | .navigationEnd root => addBreadcrumb interp (some root) [] []
  | .other => current

/-- The value held by the BehaviorSubject of BreadcrumbService after a
sequence of router events, starting from its initial value `[]`. -/
def breadcrumbsValue (interp : φ → Data φ δ → String)
    (events : List (RouterEvent φ δ)) : List Breadcrumb :=
  events.foldl (onRouterEvent interp) []

/-- The state touched by the service during breadcrumb construction: the
externally owned route tree and the breadcrumbs array being filled. -/
structure ServiceState (φ δ : Type) where
  root : ActivatedRouteSnapshot φ δ
  breadcrumbs : List Breadcrumb

/-- State-passing rendering of `addBreadcrumb` over `ServiceState`; the
only write in the body is the push on the breadcrumbs array, translated as
updating the breadcrumbs component. -/
def addBreadcrumbState (interp : φ → Data φ δ → String) :
    Option (ActivatedRouteSnapshot φ δ) → List String → ServiceState φ δ →
    ServiceState φ δ
  | none, _, σ => σ
  | some (.mk url data children), parentUrl, σ =>
      let routeUrl := parentUrl ++ url.map UrlSegment.path
      let σ2 :=
        if truthy data.breadcrumb then
          { σ with
            breadcrumbs := σ.breadcrumbs ++
              [{ label := getLabel interp data
                 url := "/" ++ String.intercalate "/" routeUrl }] }
        else σ
      match children with
      | [] => addBreadcrumbState interp none routeUrl σ2
      | c :: _ => addBreadcrumbState interp (some c) routeUrl σ2

/-- Master lemma: starting from any snapshot, `addBreadcrumb` returns the
incoming accumulator followed by the rendering of the active-path chain. -/
lemma addBreadcrumb_some_eq_aux (interp : φ → Data φ δ → String) :
    ∀ (n : Nat) (r : ActivatedRouteSnapshot φ δ), chainLength r = n →
    ∀ (parentUrl : List String) (bs : List Breadcrumb),
      addBreadcrumb interp (some r) parentUrl bs =
        bs ++ (activePathChain parentUrl r).filterMap (renderEntry interp) := by
  intro n
  induction n with
  | zero =>
      intro r h
      cases r with
      | mk u d cs => cases cs <;> simp [chainLength] at h
  | succ n ih =>
      intro r h parentUrl bs
      cases r with
      | mk u d cs =>
        cases cs with
        | nil =>
            by_cases ht : truthy d.breadcrumb <;>
              simp [addBreadcrumb, activePathChain, renderEntry, ht]
        | cons c rest =>
            have hc : chainLength c = n := by
              simp [chainLength] at h
              omega
            by_cases ht : truthy d.breadcrumb <;>
              simp [addBreadcrumb, activePathChain, renderEntry, ht,
                ih c hc]

/-- Master lemma, stated without the auxiliary length index. -/
lemma addBreadcrumb_some_eq (interp : φ → Data φ δ → String)
    (r : ActivatedRouteSnapshot φ δ) (parentUrl : List String)
    (bs : List Breadcrumb) :
    addBreadcrumb interp (some r) parentUrl bs =
      bs ++ (activePathChain parentUrl r).filterMap (renderEntry interp) :=
  addBreadcrumb_some_eq_aux interp (chainLength r) r rfl parentUrl bs

/-- When every entry of a chain has a truthy breadcrumb, rendering drops
nothing: the filterMap is a plain map. -/
lemma filterMap_renderEntry_of_truthy (interp : φ → Data φ δ → String) :
    ∀ l : List (List String × Data φ δ),
      (∀ pd ∈ l, truthy pd.2.breadcrumb = true) →
      l.filterMap (renderEntry interp) =
        l.map (fun pd =>
          { label := getLabel interp pd.2
            url := "/" ++ String.intercalate "/" pd.1 }) := by
  intro l
  induction l with
  | nil => intro _; simp
  | cons a t ih =>
      intro h
      have ha : truthy a.2.breadcrumb = true := h a (by simp)
      have ht : ∀ pd ∈ t, truthy pd.2.breadcrumb = true := by
        intro pd hpd
        exact h pd (by simp [hpd])
      simp [renderEntry, ha, ih ht]

/-- The fuel-indexed traversal completes with fuel equal to the length of
the active path and agrees with the total function. -/
lemma addBreadcrumbFuel_chainLength_aux (interp : φ → Data φ δ → String) :
    ∀ (n : Nat) (r : ActivatedRouteSnapshot φ δ), chainLength r = n →
    ∀ (parentUrl : List String) (bs : List Breadcrumb),
      addBreadcrumbFuel interp n (some r) parentUrl bs =
        some (addBreadcrumb interp (some r) parentUrl bs) := by
  intro n
  induction n with
  | zero =>
      intro r h
      cases r with
      | mk u d cs => cases cs <;> simp [chainLength] at h
  | succ n ih =>
      intro r h parentUrl bs
      cases r with
      | mk u d cs =>
        cases cs with
        | nil =>
            have hn : n = 0 := by
              simp [chainLength] at h
              omega
            subst hn
            simp [addBreadcrumbFuel, addBreadcrumb]
        | cons c rest =>
            have hc : chainLength c = n := by
              simp [chainLength] at h
              omega
            simp [addBreadcrumbFuel, addBreadcrumb, ih c hc]

/-- The state-passing traversal never writes the route tree and computes
the same breadcrumbs as the accumulator-passing one. -/
lemma addBreadcrumbState_aux (interp : φ → Data φ δ → String) :
    ∀ (n : Nat) (r : ActivatedRouteSnapshot φ δ), chainLength r = n →
    ∀ (parentUrl : List String) (σ : ServiceState φ δ),
      (addBreadcrumbState interp (some r) parentUrl σ).root = σ.root ∧
      (addBreadcrumbState interp (some r) parentUrl σ).breadcrumbs =
        addBreadcrumb interp (some r) parentUrl σ.breadcrumbs := by
  intro n
  induction n with
  | zero =>
      intro r h
      cases r with
      | mk u d cs => cases cs <;> simp [chainLength] at h
  | succ n ih =>
      intro r h parentUrl σ
      cases r with
      | mk u d cs =>
        cases cs with
        | nil =>
            by_cases ht : truthy d.breadcrumb <;>
              simp [addBreadcrumbState, addBreadcrumb, ht]
        | cons c rest =>
            have hc : chainLength c = n := by
              simp [chainLength] at h
              omega
            by_cases ht : truthy d.breadcrumb <;>
              simp [addBreadcrumbState, addBreadcrumb, ht, ih c hc]

/-- Folding the subscription step over events that are all filtered out
leaves the subject value unchanged. -/
lemma foldl_onRouterEvent_of_no_navigationEnd
    (interp : φ → Data φ δ → String) :
    ∀ (events : List (RouterEvent φ δ)) (current : List Breadcrumb),
      (∀ ev ∈ events, isNavigationEnd ev = false) →
      events.foldl (onRouterEvent interp) current = current := by
  intro events
  induction events with
  | nil => intro current _; simp
  | cons ev rest ih =>
      intro current h
      have hev : isNavigationEnd ev = false := h ev (by simp)
      have hrest : ∀ e ∈ rest, isNavigationEnd e = false := by
        intro e he
        exact h e (by simp [he])
      cases ev with
      | navigationEnd root => simp [isNavigationEnd] at hev
      | other => simp [onRouterEvent, ih current hrest]

/-- C1, counterexample: in this two-node route tree every node along the
active path carries a breadcrumb entry (the root carries the empty string,
its child the string "Users"), yet the produced list has one element where
the claim demands two, and the URL of that element starts with a slash
before the joined segments. -/
theorem claim1_counterexample :
    (∀ pd ∈ activePathChain ([] : List String)
        (ActivatedRouteSnapshot.mk [⟨"home"⟩]
          ⟨some (BreadcrumbValue.str ""), ()⟩
          [ActivatedRouteSnapshot.mk [⟨"users"⟩]
            ⟨some (BreadcrumbValue.str "Users"), ()⟩
            ([] : List (ActivatedRouteSnapshot Unit Unit))]),
        pd.2.breadcrumb ≠ none) ∧
    (activePathChain ([] : List String)
        (ActivatedRouteSnapshot.mk [⟨"home"⟩]
          ⟨some (BreadcrumbValue.str ""), ()⟩
          [ActivatedRouteSnapshot.mk [⟨"users"⟩]
            ⟨some (BreadcrumbValue.str "Users"), ()⟩
            ([] : List (ActivatedRouteSnapshot Unit Unit))])).length = 2 ∧
    addBreadcrumb (fun (_ : Unit) (_ : Data Unit Unit) => "u")
      (some (ActivatedRouteSnapshot.mk [⟨"home"⟩]
        ⟨some (BreadcrumbValue.str ""), ()⟩
        [ActivatedRouteSnapshot.mk [⟨"users"⟩]
          ⟨some (BreadcrumbValue.str "Users"), ()⟩ []])) [] [] =
      [{ label := some "Users", url := "/home/users" }] := by
  refine ⟨?_, ?_, ?_⟩
  · simp [activePathChain]
  · simp [activePathChain]
  · simp [addBreadcrumb, truthy, getLabel]
    decide

/-- C1 (amended): for every route tree in which every node along the
active path carries a truthy breadcrumb entry (a non-empty literal string
or a function), the list produced by addBreadcrumb from the root with an
empty parent URL has one element per active-path node, lists them in
root-to-leaf order, labels each by getLabel of the node data, and gives
each the URL made of a leading slash followed by the slash-joined
concatenation of all path segments from the root up to and including that
node; in particular its length equals the number of active-path nodes. -/
theorem claim1_amended_all_truthy (interp : φ → Data φ δ → String)
    (r : ActivatedRouteSnapshot φ δ)
    (h : ∀ pd ∈ activePathChain ([] : List String) r,
      truthy pd.2.breadcrumb = true) :
    addBreadcrumb interp (some r) [] [] =
      (activePathChain [] r).map (fun pd =>
        { label := getLabel interp pd.2
          url := "/" ++ String.intercalate "/" pd.1 }) ∧
    (addBreadcrumb interp (some r) [] []).length =
      (activePathChain ([] : List String) r).length := by
  have hmap := filterMap_renderEntry_of_truthy interp
    (activePathChain ([] : List String) r) h
  constructor
  · rw [addBreadcrumb_some_eq, hmap]
    simp
  · rw [addBreadcrumb_some_eq, hmap]
    simp

/-- Witness for C1 (amended) at a concrete two-node tree with truthy
entries on the whole active path. -/
theorem claim1_witness :
    (∀ pd ∈ activePathChain ([] : List String)
        (ActivatedRouteSnapshot.mk [⟨"home"⟩]
          ⟨some (BreadcrumbValue.str "Home"), ()⟩
          [ActivatedRouteSnapshot.mk [⟨"users"⟩]
            ⟨some (BreadcrumbValue.str "Users"), ()⟩
            ([] : List (ActivatedRouteSnapshot Unit Unit))]),
        truthy pd.2.breadcrumb = true) ∧
    (addBreadcrumb (fun (_ : Unit) (_ : Data Unit Unit) => "u")
        (some (ActivatedRouteSnapshot.mk [⟨"home"⟩]
          ⟨some (BreadcrumbValue.str "Home"), ()⟩
          [ActivatedRouteSnapshot.mk [⟨"users"⟩]
            ⟨some (BreadcrumbValue.str "Users"), ()⟩ []])) [] [] =
      (activePathChain []
          (ActivatedRouteSnapshot.mk [⟨"home"⟩]
            ⟨some (BreadcrumbValue.str "Home"), ()⟩
            [ActivatedRouteSnapshot.mk [⟨"users"⟩]
              ⟨some (BreadcrumbValue.str "Users"), ()⟩ []])).map (fun pd =>
        { label := getLabel (fun (_ : Unit) (_ : Data Unit Unit) => "u")
            pd.2
          url := "/" ++ String.intercalate "/" pd.1 }) ∧
      (addBreadcrumb (fun (_ : Unit) (_ : Data Unit Unit) => "u")
          (some (ActivatedRouteSnapshot.mk [⟨"home"⟩]
            ⟨some (BreadcrumbValue.str "Home"), ()⟩
            [ActivatedRouteSnapshot.mk [⟨"users"⟩]
              ⟨some (BreadcrumbValue.str "Users"), ()⟩ []])) []
          []).length =
        (activePathChain ([] : List String)
            (ActivatedRouteSnapshot.mk [⟨"home"⟩]
              ⟨some (BreadcrumbValue.str "Home"), ()⟩
              [ActivatedRouteSnapshot.mk [⟨"users"⟩]
                ⟨some (BreadcrumbValue.str "Users"), ()⟩
                ([] : List (ActivatedRouteSnapshot Unit Unit))])).length) :=
  ⟨by simp [activePathChain, truthy]; decide,
   claim1_amended_all_truthy _ _
     (by simp [activePathChain, truthy]; decide)⟩

/-- C2: for a node data bag whose breadcrumb entry is present, getLabel
returns the entry itself when the entry is a literal string and the result
of applying the entry to the data bag when the entry is a function. -/
theorem claim2_getLabel (interp : φ → Data φ δ → String) (d : Data φ δ) :
    (∀ s, d.breadcrumb = some (BreadcrumbValue.str s) →
      getLabel interp d = some s) ∧
    (∀ code, d.breadcrumb = some (BreadcrumbValue.fn code) →
      getLabel interp d = some (interp code d)) := by
  constructor <;> intro x hx <;> simp [getLabel, hx]

/-- Witness for C2 at a function entry reading the resolved user name from
the data bag, and at a literal entry. -/
theorem claim2_witness :
    getLabel (fun (_ : Unit) (d : Data Unit String) => d.rest)
        ⟨some (BreadcrumbValue.fn ()), "Leanne Graham"⟩ =
      some ((fun (_ : Unit) (d : Data Unit String) => d.rest) ()
        ⟨some (BreadcrumbValue.fn ()), "Leanne Graham"⟩) :=
  (claim2_getLabel (fun (_ : Unit) (d : Data Unit String) => d.rest)
    ⟨some (BreadcrumbValue.fn ()), "Leanne Graham"⟩).2 () rfl

/-- C3: a node along the active path without breadcrumb metadata adds no
element for itself, while the traversal continues into its first child and
its path segments still extend the URL prefix used for descendants. -/
theorem claim3_missing_entry_skipped (interp : φ → Data φ δ → String)
    (r : ActivatedRouteSnapshot φ δ) (parentUrl : List String)
    (bs : List Breadcrumb) (h : r.data.breadcrumb = none) :
    addBreadcrumb interp (some r) parentUrl bs =
      addBreadcrumb interp r.firstChild
        (parentUrl ++ r.url.map UrlSegment.path) bs := by
  cases r with
  | mk u d cs =>
      simp [ActivatedRouteSnapshot.data] at h
      cases cs <;>
        simp [addBreadcrumb, ActivatedRouteSnapshot.firstChild,
          ActivatedRouteSnapshot.url, truthy, h]

/-- Witness for C3: a metadata-free root over a labelled child produces
exactly the breadcrumbs of the child traversal with the root segments
prefixed. -/
theorem claim3_witness :
    (ActivatedRouteSnapshot.mk [⟨"admin"⟩]
        (⟨none, ()⟩ : Data Unit Unit)
        [ActivatedRouteSnapshot.mk [⟨"users"⟩]
          ⟨some (BreadcrumbValue.str "Users"), ()⟩ []]).data.breadcrumb =
      none ∧
    addBreadcrumb (fun (_ : Unit) (_ : Data Unit Unit) => "u")
        (some (ActivatedRouteSnapshot.mk [⟨"admin"⟩] ⟨none, ()⟩
          [ActivatedRouteSnapshot.mk [⟨"users"⟩]
            ⟨some (BreadcrumbValue.str "Users"), ()⟩ []])) [] [] =
      addBreadcrumb (fun (_ : Unit) (_ : Data Unit Unit) => "u")
        (ActivatedRouteSnapshot.mk [⟨"admin"⟩] ⟨none, ()⟩
          [ActivatedRouteSnapshot.mk [⟨"users"⟩]
            ⟨some (BreadcrumbValue.str "Users"), ()⟩ []]).firstChild
        ([] ++ [UrlSegment.mk "admin"].map UrlSegment.path) [] :=
  ⟨rfl,
   claim3_missing_entry_skipped (fun (_ : Unit) (_ : Data Unit Unit) => "u")
     (ActivatedRouteSnapshot.mk [⟨"admin"⟩] ⟨none, ()⟩
       [ActivatedRouteSnapshot.mk [⟨"users"⟩]
         ⟨some (BreadcrumbValue.str "Users"), ()⟩ []]) [] [] rfl⟩

/-- C4: the breadcrumb recursion terminates on every finite route tree,
stopping when no first child remains: the fuel-indexed variant already
completes with fuel equal to the active-path length and agrees with the
total function. -/
theorem claim4_terminates (interp : φ → Data φ δ → String)
    (r : ActivatedRouteSnapshot φ δ) (parentUrl : List String)
    (bs : List Breadcrumb) :
    addBreadcrumbFuel interp (chainLength r) (some r) parentUrl bs =
      some (addBreadcrumb interp (some r) parentUrl bs) :=
  addBreadcrumbFuel_chainLength_aux interp (chainLength r) r rfl parentUrl
    bs

/-- C5: the produced breadcrumb list depends only on the active path of
first children: two snapshots with identical active-path chains (the same
cumulative segments and data bags along first children), however their
other subtrees differ, produce identical breadcrumb lists. -/
theorem claim5_active_path_only (interp : φ → Data φ δ → String)
    (r1 r2 : ActivatedRouteSnapshot φ δ) (parentUrl : List String)
    (bs : List Breadcrumb)
    (h : activePathChain parentUrl r1 = activePathChain parentUrl r2) :
    addBreadcrumb interp (some r1) parentUrl bs =
      addBreadcrumb interp (some r2) parentUrl bs := by
  rw [addBreadcrumb_some_eq, addBreadcrumb_some_eq, h]

/-- Witness for C5: two trees that differ only in the second child of the
root (a subtree off the active path) produce the same breadcrumb list. -/
theorem claim5_witness :
    addBreadcrumb (fun (_ : Unit) (_ : Data Unit Unit) => "u")
        (some (ActivatedRouteSnapshot.mk []
          (⟨some (BreadcrumbValue.str "Home"), ()⟩ : Data Unit Unit)
          [ActivatedRouteSnapshot.mk [⟨"users"⟩]
             ⟨some (BreadcrumbValue.str "Users"), ()⟩ [],
           ActivatedRouteSnapshot.mk [⟨"about"⟩]
             ⟨some (BreadcrumbValue.str "About"), ()⟩ []])) [] [] =
      addBreadcrumb (fun (_ : Unit) (_ : Data Unit Unit) => "u")
        (some (ActivatedRouteSnapshot.mk []
          ⟨some (BreadcrumbValue.str "Home"), ()⟩
          [ActivatedRouteSnapshot.mk [⟨"users"⟩]
             ⟨some (BreadcrumbValue.str "Users"), ()⟩ []])) [] [] :=
  claim5_active_path_only _ _ _ _ _ (by simp [activePathChain])

/-- C6: the exposed breadcrumb list changes only on navigation completion:
a router event that is not a NavigationEnd leaves the subject value
unchanged, and a NavigationEnd event replaces it by the list recomputed
from the activated-route-tree snapshot current at that event. -/
theorem claim6_only_navigation_end (interp : φ → Data φ δ → String)
    (current : List Breadcrumb) (ev : RouterEvent φ δ) :
    (isNavigationEnd ev = false →
      onRouterEvent interp current ev = current) ∧
    (∀ root, ev = RouterEvent.navigationEnd root →
      onRouterEvent interp current ev =
        addBreadcrumb interp (some root) [] []) := by
  cases ev <;> simp [isNavigationEnd, onRouterEvent]

/-- Witness for C6: a filtered-out event leaves a concrete subject value
in place. -/
theorem claim6_witness :
    isNavigationEnd (RouterEvent.other : RouterEvent Unit Unit) = false ∧
    onRouterEvent (fun (_ : Unit) (_ : Data Unit Unit) => "u")
        [{ label := some "Home", url := "/home" }] RouterEvent.other =
      [{ label := some "Home", url := "/home" }] :=
  ⟨rfl,
   (claim6_only_navigation_end (fun (_ : Unit) (_ : Data Unit Unit) => "u")
     [{ label := some "Home", url := "/home" }] RouterEvent.other).1 rfl⟩

/-- C7: constructing the breadcrumbs never writes the route tree: in the
state-passing rendering the tree component is untouched and only the
breadcrumbs array receives the result of the traversal. -/
theorem claim7_tree_unchanged (interp : φ → Data φ δ → String)
    (o : Option (ActivatedRouteSnapshot φ δ)) (parentUrl : List String)
    (σ : ServiceState φ δ) :
    (addBreadcrumbState interp o parentUrl σ).root = σ.root ∧
    (addBreadcrumbState interp o parentUrl σ).breadcrumbs =
      addBreadcrumb interp o parentUrl σ.breadcrumbs := by
  cases o with
  | none => exact ⟨by simp [addBreadcrumbState], by
      simp [addBreadcrumbState, addBreadcrumb]⟩
  | some r =>
      exact addBreadcrumbState_aux interp (chainLength r) r rfl parentUrl σ

/-- C8: a breadcrumb entry that is present but falsy, such as the empty
string, is dropped by the truthiness guard: the node produces no element
even though its data carries an entry, and its path segments still extend
the URL prefix used for descendants. -/
theorem claim8_falsy_entry_dropped (interp : φ → Data φ δ → String)
    (url : List UrlSegment) (rest : δ)
    (children : List (ActivatedRouteSnapshot φ δ))
    (parentUrl : List String) (bs : List Breadcrumb) :
    truthy (some (BreadcrumbValue.str "") : Option (BreadcrumbValue φ)) =
      false ∧
    (ActivatedRouteSnapshot.mk url ⟨some (BreadcrumbValue.str ""), rest⟩
        children).data.breadcrumb ≠ none ∧
    addBreadcrumb interp
        (some (ActivatedRouteSnapshot.mk url
          ⟨some (BreadcrumbValue.str ""), rest⟩ children)) parentUrl bs =
      addBreadcrumb interp
        (ActivatedRouteSnapshot.mk url
          ⟨some (BreadcrumbValue.str ""), rest⟩ children).firstChild
        (parentUrl ++ url.map UrlSegment.path) bs := by
  refine ⟨rfl, by simp [ActivatedRouteSnapshot.data], ?_⟩
  have he : ("" : String).isEmpty = true := by decide
  cases children <;>
    simp [addBreadcrumb, ActivatedRouteSnapshot.firstChild, truthy, he]

/-- C9: before any navigation completion the subject still holds its
initial value: after any sequence of router events none of which is a
NavigationEnd, the exposed breadcrumb list is the initial empty list. -/
theorem claim9_initially_empty (interp : φ → Data φ δ → String)
    (events : List (RouterEvent φ δ))
    (h : ∀ ev ∈ events, isNavigationEnd ev = false) :
    breadcrumbsValue interp events = [] :=
  foldl_onRouterEvent_of_no_navigationEnd interp events [] h

/-- Witness for C9: two filtered-out events leave the initial empty list
in place. -/
theorem claim9_witness :
    (∀ ev ∈ ([RouterEvent.other, RouterEvent.other] :
        List (RouterEvent Unit Unit)), isNavigationEnd ev = false) ∧
    breadcrumbsValue (fun (_ : Unit) (_ : Data Unit Unit) => "u")
      [RouterEvent.other, RouterEvent.other] = [] :=
  ⟨by simp [isNavigationEnd],
   claim9_initially_empty (fun (_ : Unit) (_ : Data Unit Unit) => "u")
     [RouterEvent.other, RouterEvent.other]
     (by simp [isNavigationEnd])⟩

/-- C10: addBreadcrumb only appends: for every node, parent URL and
incoming accumulator, the result is the incoming list followed by some
tail, so no accumulated element is removed, changed or reordered. -/
theorem claim10_append_only (interp : φ → Data φ δ → String)
    (o : Option (ActivatedRouteSnapshot φ δ)) (parentUrl : List String)
    (bs : List Breadcrumb) :
    ∃ t, addBreadcrumb interp o parentUrl bs = bs ++ t := by
  cases o with
  | none => exact ⟨[], by simp [addBreadcrumb]⟩
  | some r =>
      exact ⟨(activePathChain parentUrl r).filterMap (renderEntry interp),
        addBreadcrumb_some_eq interp r parentUrl bs⟩

end AngularBreadcrumb
